import Mathlib

/-
Shallow embedding of the EPOS hardware driver
(src/epos_hardware/src/util/epos.cpp) and proofs about it.

Modelling conventions:
* C++ doubles are modelled as rationals.  The command registers
  position_cmd_, velocity_cmd_ and torque_cmd_ can hold NaN, so they are
  modelled as `Option Rat` with `none` standing for NaN (`isnan` is
  `Option.isNone`).
* `M_PI` is the exact rational value of the IEEE-754 double constant
  M_PI used by the source.
* A C cast `(int)x` truncates toward zero: `truncToInt`.
* Device transport calls (the VCS_* library) are external.  Their
  outcomes are supplied through oracle records (`ReadDevice`,
  `InitDevice`, `StatusDevice`); `none` for an output value means the
  call reported failure.  Each modelled member function additionally
  returns the list of device calls it issued, so that theorems can talk
  about which commands reach the device.
* Locals that the source leaves uninitialized before a device call
  writes into them (position_raw, velocity_raw, current_raw in read)
  receive their value from a `ReadJunk` record when the call fails,
  modelling the indeterminate contents of an uninitialized C++ local.
-/

namespace EposHardware

/-- Exact rational value of the IEEE-754 double constant M_PI
(3.14159265358979311599…), the value the compiled C++ uses. -/
def M_PI : ℚ := 884279719003555 / 281474976710656

/-- A C++ `(int)` cast on a double: truncation toward zero. -/
def truncToInt (q : ℚ) : Int := if q < 0 then -⌊-q⌋ else ⌊q⌋

/-- Operation modes of the device (epos.cpp uses the enum constants
PROFILE_POSITION_MODE, PROFILE_VELOCITY_MODE, CURRENT_MODE declared in
the header). -/
inductive OperationMode
  | PROFILE_POSITION_MODE
  | PROFILE_VELOCITY_MODE
  | CURRENT_MODE
deriving DecidableEq, Repr

/-- Device transport calls issued by the driver, with the arguments that
matter to the specification. -/
inductive VcsCall
  | SetOperationMode (mode : OperationMode)
  | MoveWithVelocity (cmd : Int)
  | HaltVelocityMovement
  | MoveToPosition (cmd : Int) (immediately alter : Bool)
  | SetCurrentMust (cmd : Int)
  | GetObjectStatusword
  | GetPositionIs
  | GetVelocityIs
  | GetCurrentIs
  | GetObjectVoltage
deriving DecidableEq, Repr

/-- Member state of the Epos class: every field of the C++ object that
the modelled member functions read or write.  Doubles are rationals;
the three command registers are `Option Rat` (none = NaN).
`operation_mode_` is an enum member that epos.cpp never initializes and
never assigns; `none` models a bit pattern that is none of the three
enum constants (the source itself anticipates this case: see the
"Unknown Mode" branch of buildMotorOutputStatus). -/
structure Epos where
  valid_ : Bool
  has_init_ : Bool
  rw_ros_units_ : Bool
  operation_mode_ : Option OperationMode
  operation_mode_map_ : List (String × OperationMode)
  position_ : ℚ
  velocity_ : ℚ
  effort_ : ℚ
  current_ : ℚ
  statusword_ : Nat
  position_cmd_ : Option ℚ
  velocity_cmd_ : Option ℚ
  torque_cmd_ : Option ℚ
  torque_constant_ : ℚ
  nominal_current_ : ℚ
  max_current_ : ℚ
  encoder_resolution_ : Int
  max_profile_velocity_ : Int
  halt_velocity_ : Bool
  power_supply_name_ : String
  power_supply_voltage_ : ℚ
  power_supply_present_ : Bool
deriving DecidableEq, Repr

/-- State after the constructor Epos::Epos (epos.cpp lines 10–110): its
initializer list sets has_init_(false), position_(0), velocity_(0),
effort_(0), current_(0), statusword_(0), position_cmd_(0),
velocity_cmd_(0); the body sets valid_, operation_mode_map_ and
rw_ros_units_ from configuration.  All remaining members — notably
torque_cmd_ and operation_mode_, which appear in no initializer — keep
the indeterminate values supplied by `junk`. -/
def construct (junk : Epos) (valid : Bool) (mode_map : List (String × OperationMode))
    (rw_ros_units : Bool) (power_supply_name : String) : Epos :=
  { junk with
    valid_ := valid
    has_init_ := false
    rw_ros_units_ := rw_ros_units
    operation_mode_map_ := mode_map
    position_ := 0
    velocity_ := 0
    effort_ := 0
    current_ := 0
    statusword_ := 0
    position_cmd_ := some 0
    velocity_cmd_ := some 0
    power_supply_name_ := power_supply_name
    power_supply_voltage_ := 0
    power_supply_present_ := false }

/-- Modelled from the spec: `torqueToCurrent` lives in the header
epos.h, which is not part of the sources; the spec defines the
conversion as current = torque / torque_constant. -/
def Epos.torqueToCurrent (s : Epos) (torque : ℚ) : ℚ :=
  torque / s.torque_constant_

/-- Modelled from the spec: `currentToTorque` lives in the header
epos.h, which is not part of the sources; the spec defines the
conversion as torque = current × torque_constant. -/
def Epos.currentToTorque (s : Epos) (current : ℚ) : ℚ :=
  current * s.torque_constant_

/-- Local `cmd` of the ProfileVelocity branch of Epos::write before
clamping (epos.cpp lines 659–665): rad/s → rpm when rw_ros_units_,
plain `(int)` cast otherwise. -/
def Epos.velocityRawCmd (s : Epos) (v : ℚ) : Int :=
  if s.rw_ros_units_ then truncToInt (v * 30 / M_PI) else truncToInt v

/-- Clamping step of the ProfileVelocity branch of Epos::write
(epos.cpp lines 666–671): two successive conditional assignments,
active only when max_profile_velocity_ >= 0. -/
def Epos.clampVelocity (s : Epos) (cmd : Int) : Int :=
  if s.max_profile_velocity_ ≥ 0 then
    let c := if cmd < -s.max_profile_velocity_ then -s.max_profile_velocity_ else cmd
    if c > s.max_profile_velocity_ then s.max_profile_velocity_ else c
  else cmd

/-- Epos::write (epos.cpp lines 651–704).  Returns the device calls
issued; the member state is not mutated by write.  Early return when
has_init_ is false or when the command register of the active mode is
NaN.  A bit pattern of operation_mode_ that is none of the three enum
constants falls through every `else if` and issues nothing. -/
def Epos.write (s : Epos) : List VcsCall :=
  if !s.has_init_ then []
  else
    match s.operation_mode_ with
    | some .PROFILE_VELOCITY_MODE =>
      match s.velocity_cmd_ with
      | none => []
      | some v =>
        let cmd := s.clampVelocity (s.velocityRawCmd v)
        if cmd = 0 ∧ s.halt_velocity_ then [.HaltVelocityMovement]
        else [.MoveWithVelocity cmd]
    | some .PROFILE_POSITION_MODE =>
      match s.position_cmd_ with
      | none => []
      | some p =>
        let cmd :=
          if s.rw_ros_units_ then truncToInt (p * 2 * s.encoder_resolution_ / M_PI)
          else truncToInt p
        [.MoveToPosition cmd true true]
    | some .CURRENT_MODE =>
      match s.torque_cmd_ with
      | none => []
      | some t =>
        let cmd :=
          if s.rw_ros_units_ then truncToInt (s.torqueToCurrent t * 1000)
          else truncToInt (s.torqueToCurrent t)
        [.SetCurrentMust cmd]
    | none => []

/-- Epos::doSwitch (epos.cpp lines 589–603): for every starting
controller whose name is a key of operation_mode_map_, issue a device
SetOperationMode call with the mapped mode.  The function body assigns
no member of the class, so the state is returned unchanged. -/
def Epos.doSwitch (s : Epos) (start_list : List String) : Epos × List VcsCall :=
  (s, start_list.filterMap fun n =>
    (s.operation_mode_map_.lookup n).map VcsCall.SetOperationMode)

/-- Outcomes of the device calls performed by one Epos::read cycle;
`none` means the call reported failure. -/
structure ReadDevice where
  statusword : Option Nat
  position_raw : Option Int
  velocity_raw : Option Int
  current_raw : Option Int
  voltage10x : Option Nat
deriving DecidableEq, Repr

/-- Indeterminate values of the uninitialized C++ locals position_raw,
velocity_raw, current_raw of Epos::read, observed when the
corresponding device call fails and therefore does not overwrite
them. -/
structure ReadJunk where
  position_raw : Int
  velocity_raw : Int
  current_raw : Int
deriving DecidableEq, Repr

/-- Epos::read (epos.cpp lines 605–649).  Early return when has_init_
is false.  All VCS_Get* return codes are ignored; the cached members
are recomputed unconditionally from the raw locals.  The statusword
buffer passed to VCS_GetObject is the member statusword_ itself, so a
failed call leaves the previous value in place (the transport does not
touch the buffer on failure); the other three raw locals are
uninitialized, so a failed call leaves the junk value in them.  The
voltage10x local is initialized to 0, so a failed voltage read yields
voltage 0 and presence false. -/
def Epos.read (s : Epos) (dev : ReadDevice) (junk : ReadJunk) : Epos × List VcsCall :=
  if !s.has_init_ then (s, [])
  else
    let statusword := dev.statusword.getD s.statusword_
    let position_raw : Int := (dev.position_raw).getD junk.position_raw
    let velocity_raw : Int := (dev.velocity_raw).getD junk.velocity_raw
    let current_raw : Int := (dev.current_raw).getD junk.current_raw
    let s :=
      if s.rw_ros_units_ then
        { s with
          statusword_ := statusword
          position_ := position_raw * M_PI / (2 * s.encoder_resolution_)
          velocity_ := velocity_raw * M_PI / 30
          current_ := current_raw / 1000
          effort_ := s.currentToTorque ((current_raw : ℚ) / 1000) / 1000 }
      else
        { s with
          statusword_ := statusword
          position_ := position_raw
          velocity_ := velocity_raw
          current_ := current_raw / 1000
          effort_ := s.currentToTorque ((current_raw : ℚ) / 1000) }
    let calls := [VcsCall.GetObjectStatusword, .GetPositionIs, .GetVelocityIs, .GetCurrentIs]
    if s.power_supply_name_ ≠ "" then
      let voltage10x := dev.voltage10x.getD 0
      ({ s with
         power_supply_voltage_ := (voltage10x : ℚ) / 10
         power_supply_present_ := voltage10x > 0 },
       calls ++ [.GetObjectVoltage])
    else (s, calls)

/-- ParameterSetLoader (epos.cpp lines 118–152): accumulates the names
of configuration keys that were found and those that were not. -/
structure ParameterSetLoader where
  found_ : List String
  not_found_ : List String
deriving DecidableEq, Repr

/-- ParameterSetLoader::param: look up one key and record its name in
found_ or not_found_ (epos.cpp lines 122–128). -/
def ParameterSetLoader.param (l : ParameterSetLoader) (name : String)
    (present : Bool) : ParameterSetLoader :=
  if present then { l with found_ := l.found_ ++ [name] }
  else { l with not_found_ := l.not_found_ ++ [name] }

/-- Result of ParameterSetLoader::all_or_none: the C++ returns a Bool
and writes found_all through a reference; a failure additionally logs
the found and the expected key names. -/
inductive AllOrNone
  | ok (found_all : Bool)
  | failure (found expected : List String)
deriving DecidableEq, Repr

/-- ParameterSetLoader::all_or_none (epos.cpp lines 129–146): success
with found_all = true when nothing is missing, success with found_all =
false when nothing was found, and otherwise a failure reporting the
names found and the names expected. -/
def ParameterSetLoader.all_or_none (l : ParameterSetLoader) : AllOrNone :=
  if l.not_found_.length = 0 then .ok true
  else if l.found_.length = 0 then .ok false
  else .failure l.found_ l.not_found_

/-- Loader state after chaining .param over a list of key names against
a presence predicate, starting from a fresh loader, exactly as every
call site in Epos::init does. -/
def loadParams (names : List String) (present : String → Bool) : ParameterSetLoader :=
  names.foldl (fun l n => l.param n (present n)) ⟨[], []⟩

/-- Shape of every group call site in Epos::init:
`if (!ParameterSetLoader(...)....all_or_none(flag)) return false;`.
`none` models the early return false of init (bring-up aborts);
`some flag` models continuing with the group-present flag. -/
def checkGroup (names : List String) (present : String → Bool) : Option Bool :=
  match (loadParams names present).all_or_none with
  | .ok found_all => some found_all
  | .failure _ _ => none

/-- Outcomes of the device calls of the fault-query tail of Epos::init
(epos.cpp lines 542–586); `none` means the call reported failure.
nbOfDeviceError1 answers the first VCS_GetNbOfDeviceError call,
nbOfDeviceError2 the unconditional re-enumeration at line 571. -/
structure InitDevice where
  nbOfDeviceError1 : Option Nat
  getDeviceErrorCode : Nat → Option Nat
  clearFaultOk : Bool
  nbOfDeviceError2 : Option Nat
  setEnableOk : Bool

/-- Device calls issued by the fault-query tail of Epos::init, with
their outcomes. -/
inductive InitEvent
  | GetNbOfDeviceError (result : Option Nat)
  | GetDeviceErrorCode (index : Nat) (result : Option Nat)
  | ClearFault (ok : Bool)
  | SetEnableState (ok : Bool)
deriving DecidableEq, Repr

/-- Loop of epos.cpp lines 547–553: read the error code of each fault
index in turn, returning false (init aborts) at the first failed
read. -/
def readErrorCodes (dev : InitDevice) : List Nat → Bool × List InitEvent
  | [] => (true, [])
  | i :: rest =>
    match dev.getDeviceErrorCode i with
    | none => (false, [.GetDeviceErrorCode i none])
    | some c =>
      let r := readErrorCodes dev rest
      (r.1, .GetDeviceErrorCode i (some c) :: r.2)

/-- Epos.cpp lines 571–583: the unconditional re-enumeration of device
faults, the zero-remaining check, and VCS_SetEnableState.  (The
halt_velocity parameter read at line 579 cannot fail and is applied by
`Epos.init`.) -/
def initEnumerateAndEnable (dev : InitDevice) : Bool × List InitEvent :=
  match dev.nbOfDeviceError2 with
  | none => (false, [.GetNbOfDeviceError none])
  | some m =>
    if m > 0 then (false, [.GetNbOfDeviceError (some m)])
    else if dev.setEnableOk then (true, [.GetNbOfDeviceError (some m), .SetEnableState true])
    else (false, [.GetNbOfDeviceError (some m), .SetEnableState false])

/-- Epos.cpp lines 542–583: enumerate faults, abort on a failed
enumeration or code read; when faults exist, abort unless clear_faults
is set, in which case attempt exactly one VCS_ClearFault (aborting on
its failure); then re-enumerate, require zero remaining faults, and
enable the drive. -/
def initFaultPhase (dev : InitDevice) (clear_faults : Bool) : Bool × List InitEvent :=
  match dev.nbOfDeviceError1 with
  | none => (false, [.GetNbOfDeviceError none])
  | some n =>
    let codes := readErrorCodes dev (List.range' 1 n)
    let evs := InitEvent.GetNbOfDeviceError (some n) :: codes.2
    if !codes.1 then (false, evs)
    else if n > 0 then
      if clear_faults then
        if dev.clearFaultOk then
          let rest := initEnumerateAndEnable dev
          (rest.1, evs ++ [.ClearFault true] ++ rest.2)
        else (false, evs ++ [.ClearFault false])
      else (false, evs)
    else
      let rest := initEnumerateAndEnable dev
      (rest.1, evs ++ rest.2)

/-- Epos::init (epos.cpp lines 186–587).  The early validity check
(line 187) and the fault-query tail (lines 542–586) are modelled
exactly; the long configuration push in between (device open, protocol
settings, disable state, initial mode, fault reaction, motor, sensor,
safety, regulator and profile parameters, lines 193–540) is abstracted
by config_steps_ok: init reaches the fault phase if and only if every
one of those steps succeeds (each aborts init on failure; their
all-or-none validation is modelled by `checkGroup`).  On success init
sets halt_velocity_ from configuration (line 579) and has_init_ := true
(line 585); the member values pushed by the abstracted configuration
steps are taken to be already present in s.  Returns the new state, the
Bool result of init, and the device calls of the fault phase. -/
def Epos.init (s : Epos) (config_steps_ok : Bool) (dev : InitDevice)
    (clear_faults halt_velocity : Bool) : Epos × Bool × List InitEvent :=
  if !s.valid_ then (s, false, [])
  else if !config_steps_ok then (s, false, [])
  else
    (if (initFaultPhase dev clear_faults).1 then
      { s with has_init_ := true, halt_velocity_ := halt_velocity }
     else s,
     (initFaultPhase dev clear_faults).1,
     (initFaultPhase dev clear_faults).2)

/-- Diagnostic severity levels of diagnostic_msgs::DiagnosticStatus. -/
def LVL_OK : Nat := 0

/-- Diagnostic severity WARN. -/
def LVL_WARN : Nat := 1

/-- Diagnostic severity ERROR. -/
def LVL_ERROR : Nat := 2

/-- Summary part of diagnostic_updater::DiagnosticStatusWrapper: a
severity level and a message.  The key/value entries added by stat.add
do not influence the summary and are omitted. -/
structure DiagnosticStatusWrapper where
  level : Nat
  message : String
deriving DecidableEq, Repr

/-- DiagnosticStatusWrapper::summary: overwrite level and message. -/
def DiagnosticStatusWrapper.summary (st : DiagnosticStatusWrapper)
    (lvl : Nat) (msg : String) : DiagnosticStatusWrapper :=
  { st with level := lvl, message := msg }

/-- Modelled from the diagnostic_updater library (external
collaborator): mergeSummary escalates the level to the maximum of the
old and the new level and merges the message (append when old and new
agree on being non-OK, replace when the new level is strictly
higher). -/
def DiagnosticStatusWrapper.mergeSummary (st : DiagnosticStatusWrapper)
    (lvl : Nat) (msg : String) : DiagnosticStatusWrapper :=
  let message :=
    if (decide (0 < lvl)) = (decide (0 < st.level)) then
      if st.message = "" then msg else st.message ++ "; " ++ msg
    else if st.level < lvl then msg
    else st.message
  { level := max st.level lvl, message := message }

/-- Bit b of a statusword: the STATUSWORD macro ((v >> b) & 1) of
epos.cpp line 708. -/
def STATUSWORD (b v : Nat) : Bool := (v >>> b) &&& 1 = 1

/-- Statusword bit positions (epos.cpp lines 709–717). -/
def READY_TO_SWITCH_ON : Nat := 0

/-- Statusword bit SWITCHED_ON. -/
def SWITCHED_ON : Nat := 1

/-- Statusword bit ENABLE. -/
def ENABLE : Nat := 2

/-- Statusword bit FAULT. -/
def FAULT : Nat := 3

/-- Statusword bit QUICKSTOP. -/
def QUICKSTOP : Nat := 5

/-- Statusword bit WARNING. -/
def WARNING : Nat := 7

/-- Outcomes of the fault enumeration performed inside
Epos::buildMotorStatus; `none` means the call reported failure. -/
structure StatusDevice where
  nbOfDeviceError : Option Nat
  getDeviceErrorCode : Nat → Option Nat

/-- Hexadecimal rendering used in the device-error messages. -/
def hexStr (n : Nat) : String := String.mk (Nat.toDigits 16 n)

/-- Device-fault enumeration part of Epos::buildMotorStatus (epos.cpp
lines 750–781): an ERROR merge for every pending device fault, or for a
failed error-code read, or for a failed fault query.  The failed-read
branch collapses the two GetErrorInfo message variants into one;
severity is identical. -/
def deviceErrorSummary (dev : StatusDevice)
    (st : DiagnosticStatusWrapper) : DiagnosticStatusWrapper :=
  match dev.nbOfDeviceError with
  | some n =>
    (List.range' 1 n).foldl (fun st i =>
      match dev.getDeviceErrorCode i with
      | some c => st.mergeSummary LVL_ERROR ("EPOS Device Error: 0x" ++ hexStr c)
      | none => st.mergeSummary LVL_ERROR "Could not read device error") st
  | none => st.mergeSummary LVL_ERROR "Could not read device errors"

/-- Epos::buildMotorStatus (epos.cpp lines 719–786), summary part.  For
an initialized driver: summary OK Enabled/Disabled from the statusword
bits, then WARN merges for quickstop-while-enabled and for the warning
bit, an ERROR merge for the fault bit, and finally the device-fault
enumeration merges.  For a driver that never completed bring-up: ERROR
"EPOS not initialized" with no bit inspection. -/
def Epos.buildMotorStatus (s : Epos) (dev : StatusDevice) : DiagnosticStatusWrapper :=
  if s.has_init_ then
    let enabled := STATUSWORD READY_TO_SWITCH_ON s.statusword_ &&
      STATUSWORD SWITCHED_ON s.statusword_ && STATUSWORD ENABLE s.statusword_
    let st := DiagnosticStatusWrapper.summary ⟨0, ""⟩ LVL_OK
      (if enabled then "Enabled" else "Disabled")
    let st := if !STATUSWORD QUICKSTOP s.statusword_ && enabled then
        st.mergeSummary LVL_WARN "Quickstop" else st
    let st := if STATUSWORD WARNING s.statusword_ then
        st.mergeSummary LVL_WARN "Warning" else st
    let st := if STATUSWORD FAULT s.statusword_ then
        st.mergeSummary LVL_ERROR "Fault" else st
    deviceErrorSummary dev st
  else
    DiagnosticStatusWrapper.summary ⟨0, ""⟩ LVL_ERROR "EPOS not initialized"

/-- Concrete driver state used to instantiate theorems: every field has
a fixed, unremarkable value; concrete statements override the fields
they are about. -/
def baseEpos : Epos :=
  { valid_ := true
    has_init_ := true
    rw_ros_units_ := false
    operation_mode_ := none
    operation_mode_map_ := []
    position_ := 0
    velocity_ := 0
    effort_ := 0
    current_ := 0
    statusword_ := 0
    position_cmd_ := some 0
    velocity_cmd_ := some 0
    torque_cmd_ := some 0
    torque_constant_ := 1
    nominal_current_ := 0
    max_current_ := 0
    encoder_resolution_ := 1
    max_profile_velocity_ := -1
    halt_velocity_ := false
    power_supply_name_ := ""
    power_supply_voltage_ := 0
    power_supply_present_ := false }

/-- C1: After a controller-switch notification whose starting
controller name is a key of the operation mode map, the driver issues
the device operation-mode-set command with the mapped mode, but —
contrary to the claim — the mapped mode does NOT become the mode used
by write(): doSwitch assigns no member, so a subsequent write() still
dispatches on the previous operation_mode_.  Concretely: with the map
sending "velocity_controller" to ProfileVelocity and the current mode
ProfilePosition, doSwitch issues SetOperationMode ProfileVelocity yet
leaves the state fully unchanged, and the next write() issues a
MoveToPosition command (the ProfilePosition branch). -/
theorem c1_doSwitch_mode_not_applied :
    letI s : Epos := { baseEpos with
      operation_mode_ := some .PROFILE_POSITION_MODE
      operation_mode_map_ := [("velocity_controller", .PROFILE_VELOCITY_MODE)] }
    (s.doSwitch ["velocity_controller"]).2 =
        [.SetOperationMode .PROFILE_VELOCITY_MODE] ∧
      (s.doSwitch ["velocity_controller"]).1 = s ∧
      (s.doSwitch ["velocity_controller"]).1.operation_mode_ =
        some .PROFILE_POSITION_MODE ∧
      Epos.write (s.doSwitch ["velocity_controller"]).1 =
        [.MoveToPosition 0 true true] := by
  refine ⟨rfl, rfl, rfl, ?_⟩
  simp [Epos.write, Epos.doSwitch, baseEpos, truncToInt]

/-- C2 counterexample: the command registers are not initialized to a
NaN sentinel.  The constructor initializer list sets position_cmd_ and
velocity_cmd_ to 0, and a write() performed after bring-up, before the
host framework has written any command, does not skip: in
ProfileVelocity mode it issues MoveWithVelocity 0. -/
theorem c2_commands_not_nan :
    letI c : Epos := construct baseEpos true [] false ""
    c.velocity_cmd_ = some 0 ∧ c.velocity_cmd_ ≠ none ∧
      c.position_cmd_ = some 0 ∧ c.position_cmd_ ≠ none ∧
      Epos.write { c with
        has_init_ := true
        operation_mode_ := some .PROFILE_VELOCITY_MODE } =
        [.MoveWithVelocity 0] := by
  refine ⟨rfl, by simp [construct], rfl, by simp [construct], ?_⟩
  simp [Epos.write, construct, baseEpos, Epos.clampVelocity, Epos.velocityRawCmd, truncToInt]

/-- C2 amended: the constructor initializes position_cmd_ and
velocity_cmd_ to 0 — not NaN — and leaves torque_cmd_ uninitialized
(it keeps its indeterminate pre-construction value); consequently an
initialized driver whose command registers were never written does not
skip in write(): in ProfileVelocity mode with halt_velocity_ unset it
issues MoveWithVelocity 0 (a halt command instead when halt_velocity_
is set). -/
theorem c2_commands_init_to_zero (junk : Epos) (valid : Bool)
    (mode_map : List (String × OperationMode)) (rw : Bool) (psn : String)
    (s : Epos) (hinit : s.has_init_ = true)
    (hmode : s.operation_mode_ = some .PROFILE_VELOCITY_MODE)
    (hcmd : s.velocity_cmd_ = some 0) :
    (construct junk valid mode_map rw psn).position_cmd_ = some 0 ∧
      (construct junk valid mode_map rw psn).velocity_cmd_ = some 0 ∧
      (construct junk valid mode_map rw psn).torque_cmd_ = junk.torque_cmd_ ∧
      Epos.write s =
        (if s.halt_velocity_ then [.HaltVelocityMovement] else [.MoveWithVelocity 0]) := by
  refine ⟨rfl, rfl, rfl, ?_⟩
  have hclamp : s.clampVelocity (s.velocityRawCmd 0) = 0 := by
    have hraw : s.velocityRawCmd 0 = 0 := by
      simp [Epos.velocityRawCmd, truncToInt]
    rw [hraw]
    unfold Epos.clampVelocity
    split
    · rename_i h
      simp only
      split
      · omega
      · split <;> omega
    · rfl
  simp [Epos.write, hinit, hmode, hcmd, hclamp]

/-- C2 amended, witness: instantiated at the concrete state produced by
the constructor followed by a bring-up that enables ProfileVelocity
mode. -/
theorem c2_commands_init_to_zero_witness :
    (construct baseEpos true [] false "").position_cmd_ = some 0 ∧
      (construct baseEpos true [] false "").velocity_cmd_ = some 0 ∧
      (construct baseEpos true [] false "").torque_cmd_ = baseEpos.torque_cmd_ ∧
      Epos.write { construct baseEpos true [] false "" with
          has_init_ := true
          operation_mode_ := some .PROFILE_VELOCITY_MODE } =
        (if ({ construct baseEpos true [] false "" with
          has_init_ := true
          operation_mode_ := some .PROFILE_VELOCITY_MODE } : Epos).halt_velocity_ then
          [.HaltVelocityMovement] else [.MoveWithVelocity 0]) :=
  c2_commands_init_to_zero baseEpos true [] false ""
    { construct baseEpos true [] false "" with
      has_init_ := true
      operation_mode_ := some .PROFILE_VELOCITY_MODE }
    rfl rfl rfl

/-- C9: in write() under Current mode with physical units enabled, the
device receives (torque_cmd / torque_constant) × 1000 milliamps via a
SetCurrentMust call; in particular torque_constant = 2 and torque_cmd =
4 Nm yield 2000 mA. -/
theorem c9_current_mode_conversion (s : Epos) (t : ℚ)
    (hinit : s.has_init_ = true)
    (hmode : s.operation_mode_ = some .CURRENT_MODE)
    (hunits : s.rw_ros_units_ = true)
    (hcmd : s.torque_cmd_ = some t) :
    Epos.write s = [.SetCurrentMust (truncToInt (t / s.torque_constant_ * 1000))] ∧
      Epos.write { baseEpos with
        has_init_ := true
        operation_mode_ := some .CURRENT_MODE
        rw_ros_units_ := true
        torque_cmd_ := some 4
        torque_constant_ := 2 } = [.SetCurrentMust 2000] := by
  constructor
  · simp [Epos.write, hinit, hmode, hunits, hcmd, Epos.torqueToCurrent]
  · simp only [Epos.write, Epos.torqueToCurrent, baseEpos]
    norm_num [truncToInt]

/-- C9 witness: the general statement applied at the concrete
torque_constant = 2, torque_cmd = 4 instance. -/
theorem c9_current_mode_conversion_witness :
    Epos.write { baseEpos with
        has_init_ := true
        operation_mode_ := some .CURRENT_MODE
        rw_ros_units_ := true
        torque_cmd_ := some 4
        torque_constant_ := 2 } =
      [.SetCurrentMust (truncToInt ((4 : ℚ) / ({ baseEpos with
        has_init_ := true
        operation_mode_ := some .CURRENT_MODE
        rw_ros_units_ := true
        torque_cmd_ := some 4
        torque_constant_ := 2 } : Epos).torque_constant_ * 1000))] :=
  (c9_current_mode_conversion { baseEpos with
      has_init_ := true
      operation_mode_ := some .CURRENT_MODE
      rw_ros_units_ := true
      torque_cmd_ := some 4
      torque_constant_ := 2 } 4 rfl rfl rfl rfl).1

/-- C3: in write() under ProfileVelocity mode with physical units
enabled, the command is converted rad/s → rpm first and the result then
clamped into [−max_profile_velocity, +max_profile_velocity] whenever a
non-negative max_profile_velocity is configured; the sentinel −1
disables clamping; in particular max_profile_velocity = 10 with command
1000 rad/s sends exactly 10 to the device. -/
theorem c3_profile_velocity_clamp (s : Epos) (v : ℚ) (cmd : Int)
    (hinit : s.has_init_ = true)
    (hmode : s.operation_mode_ = some .PROFILE_VELOCITY_MODE)
    (hunits : s.rw_ros_units_ = true)
    (hcmd : s.velocity_cmd_ = some v) :
    (0 ≤ s.max_profile_velocity_ →
      s.clampVelocity cmd =
          min s.max_profile_velocity_ (max cmd (-s.max_profile_velocity_)) ∧
        -s.max_profile_velocity_ ≤ s.clampVelocity cmd ∧
        s.clampVelocity cmd ≤ s.max_profile_velocity_) ∧
    (s.max_profile_velocity_ = -1 → s.clampVelocity cmd = cmd) ∧
    (s.clampVelocity (truncToInt (v * 30 / M_PI)) ≠ 0 →
      Epos.write s =
        [.MoveWithVelocity (s.clampVelocity (truncToInt (v * 30 / M_PI)))]) ∧
    Epos.write { baseEpos with
        has_init_ := true
        operation_mode_ := some .PROFILE_VELOCITY_MODE
        rw_ros_units_ := true
        max_profile_velocity_ := 10
        velocity_cmd_ := some 1000 } = [.MoveWithVelocity 10] := by
  refine ⟨?_, ?_, ?_, ?_⟩
  · intro h
    unfold Epos.clampVelocity
    rw [if_pos (by omega)]
    refine ⟨?_, ?_, ?_⟩ <;> (simp only; split <;> split <;> omega)
  · intro h
    unfold Epos.clampVelocity
    rw [if_neg (by omega)]
  · intro hne
    simp [Epos.write, hinit, hmode, hcmd, Epos.velocityRawCmd, hunits, hne]
  · have h9549 : truncToInt ((1000 : ℚ) * 30 / M_PI) = 9549 := by
      norm_num [truncToInt, M_PI]
    simp only [Epos.write, Epos.velocityRawCmd, Epos.clampVelocity, baseEpos, h9549]
    norm_num

/-- C3 witness: the general clamp facts applied to the concrete state
of the 1000 rad/s example. -/
theorem c3_profile_velocity_clamp_witness :
    (0 : Int) ≤ 10 ∧
      Epos.clampVelocity { baseEpos with
          has_init_ := true
          operation_mode_ := some .PROFILE_VELOCITY_MODE
          rw_ros_units_ := true
          max_profile_velocity_ := 10
          velocity_cmd_ := some 1000 } 9549 = min 10 (max 9549 (-10)) :=
  ⟨by decide,
    ((c3_profile_velocity_clamp { baseEpos with
        has_init_ := true
        operation_mode_ := some .PROFILE_VELOCITY_MODE
        rw_ros_units_ := true
        max_profile_velocity_ := 10
        velocity_cmd_ := some 1000 } 1000 9549 rfl rfl rfl rfl).1 (by decide)).1⟩

/-- Accumulator lemma for the ParameterSetLoader chain: chaining .param
over a list of names records exactly the present names in found_ and
the absent names in not_found_, in order. -/
theorem loadParams_found_not_found (p : String → Bool) :
    ∀ (names : List String) (l : ParameterSetLoader),
      (names.foldl (fun l n => l.param n (p n)) l).found_ =
          l.found_ ++ names.filter (fun n => p n) ∧
        (names.foldl (fun l n => l.param n (p n)) l).not_found_ =
          l.not_found_ ++ names.filter (fun n => !p n) := by
  intro names
  induction names with
  | nil => intro l; simp
  | cons a t ih =>
    intro l
    by_cases h : p a = true
    · simpa [ParameterSetLoader.param, h, List.filter_cons] using ih (l.param a (p a))
    · simp only [Bool.not_eq_true] at h
      simpa [ParameterSetLoader.param, h, List.filter_cons] using ih (l.param a (p a))

/-- C4: the all-or-none validator accepts a group whose attributes are
all present (group applied) and one with no attribute present (group
skipped, for a non-empty group), and rejects every partial subset,
reporting the names found and the names expected; at every call site of
Epos::init such a failure aborts bring-up (`checkGroup` returns
none). -/
theorem c4_all_or_none (names : List String) (p : String → Bool) :
    ((∀ n ∈ names, p n = true) → (loadParams names p).all_or_none = .ok true) ∧
    (names ≠ [] → (∀ n ∈ names, p n = false) →
      (loadParams names p).all_or_none = .ok false) ∧
    ((∃ n ∈ names, p n = true) → (∃ n ∈ names, p n = false) →
      (loadParams names p).all_or_none =
          .failure (names.filter (fun n => p n)) (names.filter (fun n => !p n)) ∧
        checkGroup names p = none) := by
  have hf := loadParams_found_not_found p names ⟨[], []⟩
  have hfound : (loadParams names p).found_ = names.filter (fun n => p n) := by
    simpa [loadParams] using hf.1
  have hnot : (loadParams names p).not_found_ = names.filter (fun n => !p n) := by
    simpa [loadParams] using hf.2
  refine ⟨?_, ?_, ?_⟩
  · intro hall
    have : names.filter (fun n => !p n) = [] :=
      List.filter_eq_nil_iff.mpr (fun a ha => by simp [hall a ha])
    simp [ParameterSetLoader.all_or_none, hnot, this]
  · intro hne hnone
    have h1 : names.filter (fun n => !p n) = names :=
      List.filter_eq_self.mpr (fun a ha => by simp [hnone a ha])
    have h2 : names.filter (fun n => p n) = [] :=
      List.filter_eq_nil_iff.mpr (fun a ha => by simp [hnone a ha])
    simp [ParameterSetLoader.all_or_none, hnot, hfound, h1, h2,
      List.length_eq_zero, hne]
  · intro ⟨a, ha, hpa⟩ ⟨b, hb, hpb⟩
    have h1 : names.filter (fun n => p n) ≠ [] :=
      List.ne_nil_of_mem (List.mem_filter.mpr ⟨ha, hpa⟩)
    have h2 : names.filter (fun n => !p n) ≠ [] :=
      List.ne_nil_of_mem (List.mem_filter.mpr ⟨hb, by simp [hpb]⟩)
    have hres : (loadParams names p).all_or_none =
        .failure (names.filter (fun n => p n)) (names.filter (fun n => !p n)) := by
      simp [ParameterSetLoader.all_or_none, hnot, hfound,
        List.length_eq_zero, h1, h2]
    exact ⟨hres, by simp [checkGroup, hres]⟩

/-- C4 witness: the group of two keys with exactly one present fails
with the found and expected names reported, and `checkGroup` aborts. -/
theorem c4_all_or_none_witness :
    (∃ n ∈ ["resolution", "inverted_polarity"], (n == "resolution") = true) ∧
      (∃ n ∈ ["resolution", "inverted_polarity"], (n == "resolution") = false) ∧
      (loadParams ["resolution", "inverted_polarity"] (· == "resolution")).all_or_none =
        .failure ["resolution"] ["inverted_polarity"] ∧
      checkGroup ["resolution", "inverted_polarity"] (· == "resolution") = none := by
  refine ⟨by decide, by decide, ?_⟩
  have h := (c4_all_or_none ["resolution", "inverted_polarity"]
    (· == "resolution")).2.2 (by decide) (by decide)
  simpa using h

/-- C7: a driver whose bring-up failed is non-operational: init leaves
the state unchanged when it returns false (in particular has_init_
remains false, as the constructor set it), and with has_init_ false
both read() and write() return immediately, issuing no device call and
mutating no cached state or command field. -/
theorem c7_failed_init_noop (s : Epos) (dev : ReadDevice) (junk : ReadJunk)
    (cok : Bool) (idev : InitDevice) (cf hv : Bool) (j : Epos) (valid : Bool)
    (m : List (String × OperationMode)) (rw : Bool) (psn : String) :
    (construct j valid m rw psn).has_init_ = false ∧
    (s.has_init_ = false → Epos.write s = [] ∧ s.read dev junk = (s, [])) ∧
    ((s.init cok idev cf hv).2.1 = false → (s.init cok idev cf hv).1 = s) := by
  refine ⟨rfl, ?_, ?_⟩
  · intro h
    exact ⟨by simp [Epos.write, h], by simp [Epos.read, h]⟩
  · intro h
    unfold Epos.init at h ⊢
    by_cases h1 : (!s.valid_) = true
    · rw [if_pos h1]
    · rw [if_neg h1] at h ⊢
      by_cases h2 : (!cok) = true
      · rw [if_pos h2]
      · rw [if_neg h2] at h ⊢
        simp only at h
        simp [h]

/-- C7 witness: the no-op behavior at a concrete non-initialized state
and a concrete failed bring-up. -/
theorem c7_failed_init_noop_witness :
    (Epos.write { baseEpos with has_init_ := false } = [] ∧
      Epos.read { baseEpos with has_init_ := false }
          ⟨some 0, some 0, some 0, some 0, some 0⟩ ⟨0, 0, 0⟩ =
        ({ baseEpos with has_init_ := false }, [])) ∧
    (({ baseEpos with has_init_ := false } : Epos).init false
        ⟨some 0, fun _ => some 0, true, some 0, true⟩ false false).1 =
      { baseEpos with has_init_ := false } :=
  ⟨(c7_failed_init_noop { baseEpos with has_init_ := false }
      ⟨some 0, some 0, some 0, some 0, some 0⟩ ⟨0, 0, 0⟩ false
      ⟨some 0, fun _ => some 0, true, some 0, true⟩ false false
      baseEpos true [] false "").2.1 rfl,
    (c7_failed_init_noop { baseEpos with has_init_ := false }
      ⟨some 0, some 0, some 0, some 0, some 0⟩ ⟨0, 0, 0⟩ false
      ⟨some 0, fun _ => some 0, true, some 0, true⟩ false false
      baseEpos true [] false "").2.2 rfl⟩

/-- C6 counterexample: a failed device call during a cyclic read does
NOT leave the corresponding cached value at its previous (stale) value.
With the previous cached position 5, a failed VCS_GetPositionIs and an
uninitialized raw local that happens to hold 0, read() overwrites the
cached position with 0. -/
theorem c6_read_not_stale :
    letI s : Epos := { baseEpos with position_ := 5 }
    letI dev : ReadDevice := ⟨some 0, none, some 0, some 0, none⟩
    letI junk : ReadJunk := ⟨0, 0, 0⟩
    s.position_ = 5 ∧ dev.position_raw = none ∧
      (s.read dev junk).1.position_ = 0 ∧
      (s.read dev junk).1.position_ ≠ s.position_ := by
  have h0 : (({ baseEpos with position_ := 5 } : Epos).read
      ⟨some 0, none, some 0, some 0, none⟩ ⟨0, 0, 0⟩).1.position_ = 0 := by
    simp [Epos.read, baseEpos]
  exact ⟨rfl, rfl, h0, by rw [h0]; norm_num⟩

/-- C6 amended: no exception propagates (read is a total function) and
on a failed transport call the statusword does retain its previous
value, because the buffer passed to the device is the cached member
itself; but position, velocity, current and effort are unconditionally
recomputed from raw output locals, which hold indeterminate values when
the corresponding call failed — so those four cached values are
overwritten with junk-derived values, not retained (shown here for the
raw-units path; the physical-units path rescales the same locals). -/
theorem c6_read_failure_behavior (s : Epos) (dev : ReadDevice) (junk junk2 : ReadJunk)
    (hinit : s.has_init_ = true) :
    (dev.statusword = none → (s.read dev junk).1.statusword_ = s.statusword_) ∧
    (s.rw_ros_units_ = false → dev.position_raw = none →
      (s.read dev junk).1.position_ = (junk.position_raw : ℚ)) ∧
    (s.rw_ros_units_ = false → dev.velocity_raw = none →
      (s.read dev junk).1.velocity_ = (junk.velocity_raw : ℚ)) ∧
    (dev.current_raw = none →
      (s.read dev junk).1.current_ = (junk.current_raw : ℚ) / 1000) ∧
    (s.rw_ros_units_ = false → dev.position_raw = none →
      junk.position_raw ≠ junk2.position_raw →
      (s.read dev junk).1.position_ ≠ (s.read dev junk2).1.position_) := by
  refine ⟨?_, ?_, ?_, ?_, ?_⟩
  · intro hsw
    simp [Epos.read, hinit, hsw]
    split <;> split <;> rfl
  · intro hu hp
    simp [Epos.read, hinit, hu, hp]
    split <;> rfl
  · intro hu hvel
    simp [Epos.read, hinit, hu, hvel]
    split <;> rfl
  · intro hc
    simp [Epos.read, hinit, hc]
    split <;> split <;> rfl
  · intro hu hp hne
    have e1 : (s.read dev junk).1.position_ = (junk.position_raw : ℚ) := by
      simp [Epos.read, hinit, hu, hp]
      split <;> rfl
    have e2 : (s.read dev junk2).1.position_ = (junk2.position_raw : ℚ) := by
      simp [Epos.read, hinit, hu, hp]
      split <;> rfl
    rw [e1, e2]
    exact_mod_cast hne

/-- C6 amended, witness: a cycle in which every transport call fails,
with concrete distinct junk values, showing the statusword retained and
the other cached values overwritten from the junk. -/
theorem c6_read_failure_behavior_witness :
    letI s : Epos := { baseEpos with statusword_ := 7, position_ := 5 }
    letI dev : ReadDevice := ⟨none, none, none, none, none⟩
    (s.read dev ⟨1, 2, 3⟩).1.statusword_ = s.statusword_ ∧
      (s.read dev ⟨1, 2, 3⟩).1.position_ = ((1 : Int) : ℚ) ∧
      (s.read dev ⟨1, 2, 3⟩).1.velocity_ = ((2 : Int) : ℚ) ∧
      (s.read dev ⟨1, 2, 3⟩).1.current_ = ((3 : Int) : ℚ) / 1000 ∧
      (s.read dev ⟨1, 2, 3⟩).1.position_ ≠ (s.read dev ⟨4, 2, 3⟩).1.position_ :=
  letI s : Epos := { baseEpos with statusword_ := 7, position_ := 5 }
  letI dev : ReadDevice := ⟨none, none, none, none, none⟩
  letI h := c6_read_failure_behavior s dev ⟨1, 2, 3⟩ ⟨4, 2, 3⟩ rfl
  ⟨h.1 rfl, h.2.1 rfl rfl, h.2.2.1 rfl rfl, h.2.2.2.1 rfl,
    h.2.2.2.2 rfl rfl (by decide)⟩

/-- Recognizer for ClearFault events. -/
def isClearFaultEvent : InitEvent → Bool
  | .ClearFault _ => true
  | _ => false

/-- Recognizer for fault-enumeration (GetNbOfDeviceError) events. -/
def isEnumEvent : InitEvent → Bool
  | .GetNbOfDeviceError _ => true
  | _ => false

/-- Results of the fault enumerations contained in a bring-up trace, in
order; `some k` is a successful enumeration reporting k faults, `none`
a failed enumeration call. -/
def enumResults (evs : List InitEvent) : List (Option Nat) :=
  evs.filterMap fun e =>
    match e with
    | .GetNbOfDeviceError r => some r
    | _ => none

/-- Every event produced by the error-code reading loop is a
GetDeviceErrorCode event. -/
theorem readErrorCodes_mem (dev : InitDevice) :
    ∀ (l : List Nat), ∀ e ∈ (readErrorCodes dev l).2,
      ∃ i r, e = InitEvent.GetDeviceErrorCode i r := by
  intro l
  induction l with
  | nil => intro e he; simp [readErrorCodes] at he
  | cons i rest ih =>
    intro e he
    unfold readErrorCodes at he
    cases h : dev.getDeviceErrorCode i with
    | none =>
      rw [h] at he
      simp at he
      exact ⟨i, none, he⟩
    | some c =>
      rw [h] at he
      simp at he
      rcases he with he | he
      · exact ⟨i, some c, he⟩
      · exact ih e he

/-- The error-code loop contributes no ClearFault event. -/
theorem readErrorCodes_countP_clear (dev : InitDevice) (l : List Nat) :
    (readErrorCodes dev l).2.countP isClearFaultEvent = 0 :=
  List.countP_eq_zero.mpr fun e he => by
    obtain ⟨i, r, rfl⟩ := readErrorCodes_mem dev l e he
    simp [isClearFaultEvent]

/-- The error-code loop contributes no enumeration event. -/
theorem readErrorCodes_countP_enum (dev : InitDevice) (l : List Nat) :
    (readErrorCodes dev l).2.countP isEnumEvent = 0 :=
  List.countP_eq_zero.mpr fun e he => by
    obtain ⟨i, r, rfl⟩ := readErrorCodes_mem dev l e he
    simp [isEnumEvent]

/-- The error-code loop contributes no enumeration result. -/
theorem readErrorCodes_enumResults (dev : InitDevice) (l : List Nat) :
    enumResults (readErrorCodes dev l).2 = [] := by
  unfold enumResults
  exact List.filterMap_eq_nil_iff.mpr fun e he => by
    obtain ⟨i, r, rfl⟩ := readErrorCodes_mem dev l e he
    rfl

/-- Success of the re-enumeration-and-enable tail requires the
re-enumeration to report zero faults and the enable call to succeed,
and the trace of the successful tail is exactly the zero enumeration
followed by the successful enable call. -/
theorem initEnumerateAndEnable_success (dev : InitDevice)
    (h : (initEnumerateAndEnable dev).1 = true) :
    dev.nbOfDeviceError2 = some 0 ∧ dev.setEnableOk = true ∧
      (initEnumerateAndEnable dev).2 =
        [InitEvent.GetNbOfDeviceError (some 0), InitEvent.SetEnableState true] := by
  unfold initEnumerateAndEnable at h ⊢
  cases hnb : dev.nbOfDeviceError2 with
  | none => simp_all
  | some m =>
    by_cases hm : m > 0
    · simp_all
    · have hm0 : m = 0 := by omega
      subst hm0
      cases he : dev.setEnableOk with
      | false => simp_all
      | true => simp_all

/-- An enable call appears in the re-enumeration-and-enable tail only
when the re-enumeration reported zero faults. -/
theorem initEnumerateAndEnable_enable_mem (dev : InitDevice) (b : Bool)
    (h : InitEvent.SetEnableState b ∈ (initEnumerateAndEnable dev).2) :
    dev.nbOfDeviceError2 = some 0 := by
  unfold initEnumerateAndEnable at h
  cases hnb : dev.nbOfDeviceError2 with
  | none => simp_all
  | some m =>
    by_cases hm : m > 0
    · simp_all
    · have hm0 : m = 0 := by omega
      subst hm0
      rfl

/-- The re-enumeration-and-enable tail performs exactly one
enumeration and no clear attempt. -/
theorem initEnumerateAndEnable_counts (dev : InitDevice) :
    (initEnumerateAndEnable dev).2.countP isEnumEvent = 1 ∧
      (initEnumerateAndEnable dev).2.countP isClearFaultEvent = 0 := by
  unfold initEnumerateAndEnable
  cases hnb : dev.nbOfDeviceError2 with
  | none => simp [isEnumEvent, isClearFaultEvent]
  | some m =>
    by_cases hm : m > 0
    · simp [hm, isEnumEvent, isClearFaultEvent]
    · cases he : dev.setEnableOk <;>
        simp [hm, he, isEnumEvent, isClearFaultEvent]

/-- Appending traces appends their enumeration results. -/
theorem enumResults_append (a b : List InitEvent) :
    enumResults (a ++ b) = enumResults a ++ enumResults b := by
  unfold enumResults
  exact List.filterMap_append a b _

/-- Splitting a cons into its head and tail enumeration results. -/
theorem enumResults_cons (x : InitEvent) (l : List InitEvent) :
    enumResults (x :: l) = enumResults [x] ++ enumResults l := by
  rw [show x :: l = [x] ++ l from rfl, enumResults_append]

/-- A successful fault phase produced exactly two enumerations — the
initial one (reporting some n) and the unconditional re-enumeration
(reporting zero) — and ended with the successful enable call. -/
theorem initFaultPhase_success_enum (dev : InitDevice) (cf : Bool)
    (h : (initFaultPhase dev cf).1 = true) :
    ∃ n, enumResults (initFaultPhase dev cf).2 = [some n, some 0] ∧
      ((initFaultPhase dev cf).2).getLast? = some (InitEvent.SetEnableState true) := by
  unfold initFaultPhase at h ⊢
  cases hnb : dev.nbOfDeviceError1 with
  | none => simp_all
  | some n =>
    refine ⟨n, ?_⟩
    by_cases hc : (readErrorCodes dev (List.range' 1 n)).1 = true
    · by_cases hn0 : n > 0
      · cases hcf : cf with
        | false => simp_all
        | true =>
          cases hco : dev.clearFaultOk with
          | false => simp_all
          | true =>
            have hrest : (initEnumerateAndEnable dev).1 = true := by
              simp_all
            obtain ⟨h2, h3, h4⟩ := initEnumerateAndEnable_success dev hrest
            simp only [hc, hn0, hcf, hco, Bool.not_true, Bool.false_eq_true,
              if_false, if_true, h4]
            constructor
            · rw [enumResults_append, enumResults_append, enumResults_cons,
                readErrorCodes_enumResults]
              rfl
            · rw [List.getLast?_append_of_ne_nil _ (by simp)]
              rfl
      · have hn : n = 0 := by omega
        subst hn
        have hrest : (initEnumerateAndEnable dev).1 = true := by
          simp_all [readErrorCodes]
        obtain ⟨h2, h3, h4⟩ := initEnumerateAndEnable_success dev hrest
        simp only [readErrorCodes, h4]
        constructor
        · rfl
        · rfl
    · simp_all

/-- An enable call appears in the fault-phase trace only when the
re-enumeration reported zero remaining faults. -/
theorem initFaultPhase_enable_mem (dev : InitDevice) (cf : Bool) (b : Bool)
    (h : InitEvent.SetEnableState b ∈ (initFaultPhase dev cf).2) :
    dev.nbOfDeviceError2 = some 0 := by
  unfold initFaultPhase at h
  cases hnb : dev.nbOfDeviceError1 with
  | none => simp_all
  | some n =>
    try rw [hnb] at h
    have hnotmem : ∀ b : Bool,
        InitEvent.SetEnableState b ∉ (readErrorCodes dev (List.range' 1 n)).2 := by
      intro b hmem
      obtain ⟨i, r, heq⟩ := readErrorCodes_mem dev _ _ hmem
      exact InitEvent.noConfusion heq
    by_cases hc : (readErrorCodes dev (List.range' 1 n)).1 = true
    · by_cases hn0 : n > 0
      · cases hcf : cf with
        | false =>
          simp only [hc, hn0, hcf, Bool.not_true, Bool.false_eq_true, if_false,
            if_true] at h
          rcases List.mem_cons.mp h with h | h
          · exact InitEvent.noConfusion h
          · exact absurd h (hnotmem b)
        | true =>
          cases hco : dev.clearFaultOk with
          | false =>
            simp only [hc, hn0, hcf, hco, Bool.not_true, Bool.false_eq_true,
              if_false, if_true] at h
            rcases List.mem_append.mp h with h | h
            · rcases List.mem_cons.mp h with h | h
              · exact InitEvent.noConfusion h
              · exact absurd h (hnotmem b)
            · rcases List.mem_cons.mp h with h | h
              · exact InitEvent.noConfusion h
              · exact absurd h (List.not_mem_nil _)
          | true =>
            simp only [hc, hn0, hcf, hco, Bool.not_true, Bool.false_eq_true,
              if_false, if_true] at h
            rcases List.mem_append.mp h with h | h
            · rcases List.mem_append.mp h with h | h
              · rcases List.mem_cons.mp h with h | h
                · exact InitEvent.noConfusion h
                · exact absurd h (hnotmem b)
              · rcases List.mem_cons.mp h with h | h
                · exact InitEvent.noConfusion h
                · exact absurd h (List.not_mem_nil _)
            · exact initEnumerateAndEnable_enable_mem dev b h
      · have hn : n = 0 := by omega
        subst hn
        simp only [readErrorCodes, hc, Bool.not_true, Bool.false_eq_true,
          if_false, gt_iff_lt, lt_self_iff_false, if_true] at h
        rcases List.mem_append.mp h with h | h
        · rcases List.mem_cons.mp h with h | h
          · exact InitEvent.noConfusion h
          · exact absurd h (List.not_mem_nil _)
        · exact initEnumerateAndEnable_enable_mem dev b h
    · simp only [hc, Bool.not_true, Bool.false_eq_true, Bool.not_false,
        if_true] at h
      rcases List.mem_cons.mp h with h | h
      · exact InitEvent.noConfusion h
      · exact absurd h (hnotmem b)

/-- With a valid construction, init with config_steps_ok reduces to the
fault phase. -/
theorem init_snd (s : Epos) (dev : InitDevice) (cf hv : Bool)
    (hval : s.valid_ = true) :
    (s.init true dev cf hv).2 =
      ((initFaultPhase dev cf).1, (initFaultPhase dev cf).2) := by
  unfold Epos.init
  simp [hval]

/-- Whenever init returns true, its trace is the fault-phase trace and
the fault phase succeeded. -/
theorem init_success_snd (s : Epos) (cok : Bool) (dev : InitDevice) (cf hv : Bool)
    (h : (s.init cok dev cf hv).2.1 = true) :
    (initFaultPhase dev cf).1 = true ∧
      (s.init cok dev cf hv).2.2 = (initFaultPhase dev cf).2 := by
  unfold Epos.init at h ⊢
  by_cases h1 : (!s.valid_) = true
  · rw [if_pos h1] at h; simp at h
  · rw [if_neg h1] at h ⊢
    by_cases h2 : (!cok) = true
    · rw [if_pos h2] at h; simp at h
    · rw [if_neg h2] at h ⊢
      exact ⟨h, rfl⟩

/-- A successful fault phase had a re-enumeration reporting zero
remaining faults. -/
theorem initFaultPhase_success_nb2 (dev : InitDevice) (cf : Bool)
    (h : (initFaultPhase dev cf).1 = true) :
    dev.nbOfDeviceError2 = some 0 := by
  unfold initFaultPhase at h
  cases hnb : dev.nbOfDeviceError1 with
  | none => simp_all
  | some n =>
    try rw [hnb] at h
    cases hcs : (readErrorCodes dev (List.range' 1 n)).1 with
    | false => simp [hcs] at h
    | true =>
      by_cases hn0 : n > 0
      · cases hcf : cf with
        | false => simp [hcs, hn0, hcf] at h
        | true =>
          cases hco : dev.clearFaultOk with
          | false => simp [hcs, hn0, hcf, hco] at h
          | true =>
            simp only [hcs, hn0, hcf, hco, Bool.not_true, Bool.false_eq_true,
              if_false, if_true] at h
            exact (initEnumerateAndEnable_success dev h).1
      · simp only [hcs, hn0, Bool.not_true, Bool.false_eq_true, if_false,
          if_true] at h
        exact (initEnumerateAndEnable_success dev h).1

/-- Trace and outcome of the fault phase when faults exist and
clear_faults is off: init fails with no clear attempt and no enable. -/
theorem initFaultPhase_no_clear (dev : InitDevice) (n : Nat)
    (hn : dev.nbOfDeviceError1 = some (n + 1)) :
    (initFaultPhase dev false).1 = false ∧
      (initFaultPhase dev false).2 =
        InitEvent.GetNbOfDeviceError (some (n + 1)) ::
          (readErrorCodes dev (List.range' 1 (n + 1))).2 := by
  unfold initFaultPhase
  try rw [hn]
  cases hcs : (readErrorCodes dev (List.range' 1 (n + 1))).1 with
  | false => simp [hn, hcs]
  | true => simp [hn, hcs]

/-- C5: with latent faults reported at bring-up, clear_faults = false
makes init fail with no clear attempt and no enable call; with
clear_faults = true exactly one clear attempt is made, a second
enumeration is performed when the clear succeeded, and init succeeds
only if that re-enumeration reports zero remaining faults; in every
configuration the enable call is reached only when the re-enumeration
reported zero faults. -/
theorem c5_fault_policy (s : Epos) (dev : InitDevice) (n : Nat) (hv : Bool)
    (hval : s.valid_ = true)
    (hn : dev.nbOfDeviceError1 = some (n + 1)) :
    ((s.init true dev false hv).2.1 = false ∧
      ∀ b, InitEvent.ClearFault b ∉ (s.init true dev false hv).2.2 ∧
        InitEvent.SetEnableState b ∉ (s.init true dev false hv).2.2) ∧
    ((readErrorCodes dev (List.range' 1 (n + 1))).1 = true →
      (s.init true dev true hv).2.2.countP isClearFaultEvent = 1 ∧
        (dev.clearFaultOk = true →
          (s.init true dev true hv).2.2.countP isEnumEvent = 2) ∧
        ((s.init true dev true hv).2.1 = true → dev.nbOfDeviceError2 = some 0)) ∧
    (∀ cf b : Bool, InitEvent.SetEnableState b ∈ (s.init true dev cf hv).2.2 →
      dev.nbOfDeviceError2 = some 0) := by
  have e0 : (s.init true dev false hv).2.1 = (initFaultPhase dev false).1 := by
    rw [init_snd s dev false hv hval]
  have e0t : (s.init true dev false hv).2.2 = (initFaultPhase dev false).2 := by
    rw [init_snd s dev false hv hval]
  have e1 : (s.init true dev true hv).2.1 = (initFaultPhase dev true).1 := by
    rw [init_snd s dev true hv hval]
  have e1t : (s.init true dev true hv).2.2 = (initFaultPhase dev true).2 := by
    rw [init_snd s dev true hv hval]
  obtain ⟨hf1, hf2⟩ := initFaultPhase_no_clear dev n hn
  refine ⟨⟨by rw [e0, hf1], ?_⟩, ?_, ?_⟩
  · intro b
    rw [e0t, hf2]
    constructor
    · intro hmem
      rcases List.mem_cons.mp hmem with hmem | hmem
      · exact InitEvent.noConfusion hmem
      · obtain ⟨i, r, heq⟩ := readErrorCodes_mem dev _ _ hmem
        exact InitEvent.noConfusion heq
    · intro hmem
      rcases List.mem_cons.mp hmem with hmem | hmem
      · exact InitEvent.noConfusion hmem
      · obtain ⟨i, r, heq⟩ := readErrorCodes_mem dev _ _ hmem
        exact InitEvent.noConfusion heq
  · intro hcodes
    have htr : (initFaultPhase dev true).2 =
        (InitEvent.GetNbOfDeviceError (some (n + 1)) ::
          (readErrorCodes dev (List.range' 1 (n + 1))).2) ++
          (if dev.clearFaultOk then
            [InitEvent.ClearFault true] ++ (initEnumerateAndEnable dev).2
           else [InitEvent.ClearFault false]) := by
      unfold initFaultPhase
      try rw [hn]
      cases hco : dev.clearFaultOk with
      | false => simp [hn, hcodes, hco]
      | true => simp [hn, hcodes, hco]
    refine ⟨?_, ?_, ?_⟩
    · rw [e1t, htr]
      cases hco : dev.clearFaultOk <;>
        simp [hco, List.countP_append, List.countP_cons,
          readErrorCodes_countP_clear, isClearFaultEvent,
          (initEnumerateAndEnable_counts dev).2]
    · intro hco
      rw [e1t, htr, hco]
      simp [List.countP_append, List.countP_cons,
        readErrorCodes_countP_enum, isEnumEvent, isClearFaultEvent,
        (initEnumerateAndEnable_counts dev).1]
    · intro hsucc
      rw [e1] at hsucc
      exact initFaultPhase_success_nb2 dev true hsucc
  · intro cf b hmem
    rw [init_snd s dev cf hv hval] at hmem
    exact initFaultPhase_enable_mem dev cf b hmem

/-- C5 witness: a device with two latent faults.  With clear_faults
off, bring-up fails; with clear_faults on and a successful clear,
exactly one clear attempt and two enumerations occur and the
re-enumeration reported zero faults (the success path to Enabled). -/
theorem c5_fault_policy_witness :
    (baseEpos.init true ⟨some 2, fun _ => some 4097, true, some 0, true⟩
        false false).2.1 = false ∧
      (baseEpos.init true ⟨some 2, fun _ => some 4097, true, some 0, true⟩
        true false).2.2.countP isClearFaultEvent = 1 ∧
      (baseEpos.init true ⟨some 2, fun _ => some 4097, true, some 0, true⟩
        true false).2.2.countP isEnumEvent = 2 ∧
      (⟨some 2, fun _ => some 4097, true, some 0, true⟩ :
        InitDevice).nbOfDeviceError2 = some 0 :=
  letI h := c5_fault_policy baseEpos
    ⟨some 2, fun _ => some 4097, true, some 0, true⟩ 1 false rfl rfl
  ⟨h.1.1, (h.2.1 rfl).1, (h.2.1 rfl).2.1 rfl, (h.2.1 rfl).2.2 rfl⟩

/-- C10: whenever init returns true, the bring-up trace contains
exactly two fault enumerations, the last of which — the unconditional
re-enumeration after the fault-clearing phase — reported exactly zero
device errors, and the trace ends with the successful enable call: a
successfully brought-up driver was verified fault-free immediately
before the drive was enabled. -/
theorem c10_success_implies_fault_free (s : Epos) (cok : Bool) (dev : InitDevice)
    (cf hv : Bool) (h : (s.init cok dev cf hv).2.1 = true) :
    (enumResults (s.init cok dev cf hv).2.2).length = 2 ∧
      (enumResults (s.init cok dev cf hv).2.2).getLast? = some (some 0) ∧
      ((s.init cok dev cf hv).2.2).getLast? =
        some (InitEvent.SetEnableState true) := by
  obtain ⟨hfp, htr⟩ := init_success_snd s cok dev cf hv h
  obtain ⟨n, he, hl⟩ := initFaultPhase_success_enum dev cf hfp
  rw [htr, he]
  exact ⟨rfl, rfl, hl⟩

/-- C10 witness: a successful bring-up that cleared two latent faults;
its trace has two enumerations ending in zero and finishes with the
enable call. -/
theorem c10_success_implies_fault_free_witness :
    (enumResults (baseEpos.init true
        ⟨some 2, fun _ => some 4097, true, some 0, true⟩ true false).2.2).length = 2 ∧
      (enumResults (baseEpos.init true
        ⟨some 2, fun _ => some 4097, true, some 0, true⟩ true false).2.2).getLast? =
        some (some 0) ∧
      ((baseEpos.init true
        ⟨some 2, fun _ => some 4097, true, some 0, true⟩ true false).2.2).getLast? =
        some (InitEvent.SetEnableState true) :=
  c10_success_implies_fault_free baseEpos true
    ⟨some 2, fun _ => some 4097, true, some 0, true⟩ true false rfl

/-- The device-error merges keep an ERROR level at ERROR. -/
theorem deviceErrorSummary_level_two (dev : StatusDevice) :
    ∀ (st : DiagnosticStatusWrapper), st.level = 2 →
      (deviceErrorSummary dev st).level = 2 := by
  have hfold : ∀ (l : List Nat) (st : DiagnosticStatusWrapper), st.level = 2 →
      ((l.foldl (fun st i =>
        match dev.getDeviceErrorCode i with
        | some c => st.mergeSummary LVL_ERROR ("EPOS Device Error: 0x" ++ hexStr c)
        | none => st.mergeSummary LVL_ERROR "Could not read device error") st).level) = 2 := by
    intro l
    induction l with
    | nil => intro st h; exact h
    | cons i rest ih =>
      intro st h
      rw [List.foldl_cons]
      apply ih
      cases dev.getDeviceErrorCode i <;>
        simp [DiagnosticStatusWrapper.mergeSummary, LVL_ERROR, h]
  intro st h
  unfold deviceErrorSummary
  cases hnb : dev.nbOfDeviceError with
  | none => simp [DiagnosticStatusWrapper.mergeSummary, LVL_ERROR, h]
  | some n => exact hfold _ st h

/-- With a fault query reporting zero pending errors, the device-error
part leaves the summary unchanged. -/
theorem deviceErrorSummary_zero (dev : StatusDevice)
    (st : DiagnosticStatusWrapper) (h : dev.nbOfDeviceError = some 0) :
    deviceErrorSummary dev st = st := by
  unfold deviceErrorSummary
  rw [h]
  simp [List.range']

/-- C8 counterexample: with the warning bit set and the fault bit
clear, the motor status summary is not always WARN — the device-fault
enumeration inside buildMotorStatus escalates to ERROR when the device
reports a pending fault, here fault code 0x1000 with statusword 0x80
(warning set, fault clear). -/
theorem c8_warning_can_still_be_error :
    letI s : Epos := { baseEpos with statusword_ := 128 }
    letI dev : StatusDevice := ⟨some 1, fun _ => some 4096⟩
    STATUSWORD WARNING s.statusword_ = true ∧
      STATUSWORD FAULT s.statusword_ = false ∧
      (s.buildMotorStatus dev).level = LVL_ERROR ∧
      LVL_ERROR ≠ LVL_WARN := by
  refine ⟨by decide, by decide, ?_, by decide⟩
  simp [Epos.buildMotorStatus, deviceErrorSummary, baseEpos, STATUSWORD,
    READY_TO_SWITCH_ON, SWITCHED_ON, ENABLE, FAULT, QUICKSTOP, WARNING,
    DiagnosticStatusWrapper.summary, DiagnosticStatusWrapper.mergeSummary,
    LVL_OK, LVL_WARN, LVL_ERROR, List.range']

/-- C8 amended: for an initialized driver the motor status summary is
ERROR whenever the fault bit is set, regardless of the other statusword
bits and of the device-fault query outcome; it is WARN (not ERROR) when
the warning bit is set, the fault bit is clear, and the device-fault
enumeration succeeds reporting zero pending faults; and summary
severity within one report only escalates (mergeSummary never lowers
the level). -/
theorem c8_status_severity (s : Epos) (dev : StatusDevice)
    (hinit : s.has_init_ = true) :
    (STATUSWORD FAULT s.statusword_ = true →
      (s.buildMotorStatus dev).level = LVL_ERROR) ∧
    (STATUSWORD WARNING s.statusword_ = true →
      STATUSWORD FAULT s.statusword_ = false →
      dev.nbOfDeviceError = some 0 →
      (s.buildMotorStatus dev).level = LVL_WARN) ∧
    (∀ (st : DiagnosticStatusWrapper) (lvl : Nat) (msg : String),
      st.level ≤ (st.mergeSummary lvl msg).level) := by
  refine ⟨?_, ?_, ?_⟩
  · intro hfault
    simp only [Epos.buildMotorStatus, hinit, if_true, hfault]
    apply deviceErrorSummary_level_two
    split <;> split <;>
      simp [DiagnosticStatusWrapper.mergeSummary,
        DiagnosticStatusWrapper.summary, LVL_OK, LVL_WARN, LVL_ERROR]
  · intro hwarn hfault hzero
    simp only [Epos.buildMotorStatus, hinit, if_true, hwarn, hfault,
      Bool.false_eq_true, if_false]
    rw [deviceErrorSummary_zero dev _ hzero]
    split <;>
      simp [DiagnosticStatusWrapper.mergeSummary,
        DiagnosticStatusWrapper.summary, LVL_OK, LVL_WARN, LVL_ERROR]
  · intro st lvl msg
    simp only [DiagnosticStatusWrapper.mergeSummary]
    exact le_max_left _ _

/-- C8 amended, witness: fault bit (0x08) alone gives ERROR even with a
clean device, and warning bit (0x80) with a clean device gives WARN. -/
theorem c8_status_severity_witness :
    (Epos.buildMotorStatus { baseEpos with statusword_ := 8 }
        ⟨some 0, fun _ => some 0⟩).level = LVL_ERROR ∧
      (Epos.buildMotorStatus { baseEpos with statusword_ := 128 }
        ⟨some 0, fun _ => some 0⟩).level = LVL_WARN :=
  ⟨(c8_status_severity { baseEpos with statusword_ := 8 }
      ⟨some 0, fun _ => some 0⟩ rfl).1 (by decide),
    (c8_status_severity { baseEpos with statusword_ := 128 }
      ⟨some 0, fun _ => some 0⟩ rfl).2.1 (by decide) (by decide) rfl⟩

end EposHardware
